import Mathlib

/-!
Shallow embedding of the CHEESA chatbot HTTP server (src/index.mjs).

The server is a single Node `http.createServer` handler plus a startup
configuration check.  We embed:

* parsed JSON request bodies as an inductive `Json` type (the output of
  `JSON.parse`, so object keys are already de-duplicated);
* the chat route body handling (`message` / `conversationHistory`
  coercions, prompt assembly, provider call) as total Lean functions;
* the external generative-language provider (`model.startChat` followed by
  `chat.sendMessage` / `result.response` / `response.text()`) as an
  abstract function from the assembled history and the new message to
  `Except String String` — an `error e` covers a thrown provider error as
  well as `response.text()` failing to produce usable text, with `e` the
  JavaScript error message;
* the full request handler (CORS headers, OPTIONS preflight, chat route,
  static files, 404) as a function to a `ServerResult` record that also
  records which branch ran and what was sent to the provider;
* the filesystem seen by the static branch as an abstract `stat` /
  `readable` / `content` interface (`createReadStream` succeeding is
  `readable`, a stream error produces the 404 path of `sendFile`);
* startup (`GOOGLE_AI_KEY` / `PORT` environment handling) as a function
  from an environment record to `Except String StartupConfig`.

Request URL paths appear here already parsed and normalized (the WHATWG
`URL` constructor removes dot segments, so `..` traversal never survives
into `url.pathname`).  JavaScript `String.prototype.trim` is modelled by
the structurally recursive `jsTrim`; they agree on ASCII whitespace.  JavaScript numbers
are modelled as `Int` (no claim depends on non-integral values).
-/

namespace Cheesa

/-- JSON values as produced by `JSON.parse` on the request body. -/
inductive Json where
  | null
  | bool (b : Bool)
  | num (n : Int)
  | str (s : String)
  | arr (elems : List Json)
  | obj (fields : List (String × Json))
deriving Repr

/-- Property access `body?.key` for a parsed JSON value: a lookup on an
object, `undefined` (here `none`) on everything else. -/
def getField : Json → String → Option Json
  | .obj fields, key => fields.lookup key
  | _, _ => none

mutual

/-- JavaScript `String(v)` on a parsed JSON value: `null` prints as
"null", numbers in decimal, booleans as "true"/"false", arrays join their
elements with commas (with `null` elements printing as empty), objects
print as "[object Object]". -/
def jsToString : Json → String
  | .null => "null"
  | .bool true => "true"
  | .bool false => "false"
  | .num n => toString n
  | .str s => s
  | .arr elems => String.intercalate "," (jsArrayStrings elems)
  | .obj _ => "[object Object]"

/-- Element strings used by `String` on an array (`Array.prototype.join`):
`null` elements become the empty string. -/
def jsArrayStrings : List Json → List String
  | [] => []
  | .null :: rest => "" :: jsArrayStrings rest
  | v :: rest => jsToString v :: jsArrayStrings rest

end

/-- The coercion `String(msg?.content ?? '')`: a missing or `null` content
becomes the empty string, anything else goes through `String`. -/
def contentText : Option Json → String
  | none => ""
  | some .null => ""
  | some v => jsToString v

/-- One turn of the provider-facing history.  In the source each turn is
`{ role, parts: [{ text }] }` with exactly one text part; we keep the
single text directly. -/
structure ChatTurn where
  role : String
  text : String
deriving Repr, DecidableEq

/-- The role conditional `role === 'user' ? 'user' : 'model'` applied to a
role string. -/
def normalizeRole (role : String) : String :=
  if role = "user" then "user" else "model"

/-- The per-turn mapping in `conversationHistory.map`:
`role: msg?.role === 'user' ? 'user' : 'model'` and
`parts: [{ text: String(msg?.content ?? '') }]`. -/
def mapHistoryTurn (msg : Json) : ChatTurn :=
  { role := match getField msg "role" with
      | some (.str "user") => "user"
      | _ => "model"
    text := contentText (getField msg "content") }

/-- The fixed system prompt template literal from the source. -/
def systemPrompt : String :=
  "You are CHEEStron, a helpful AI assistant for the Chemical Engineering Student Association (CHEESA) at KNUST. \nYour role is to provide information about:\n- Chemical Engineering as a career path\n- The Chemical Engineering program at KNUST\n- CHEESA activities and events\n- General chemical engineering concepts\n- University life at KNUST\n\nBe friendly, professional, and encouraging. If you don\x27t know an answer, say so and suggest reaching out to CHEESA executives for more specific information."

/-- The fixed canned assistant greeting from the source. -/
def greetingText : String :=
  "I\x27m CHEEStron, your friendly Chemical Engineering assistant. How can I help you today?"

/-- The two fixed turns that open every `model.startChat` history. -/
def fixedHistory : List ChatTurn :=
  [ { role := "user", text := systemPrompt },
    { role := "model", text := greetingText } ]

/-- Abstract external provider: given the `startChat` history and the
message passed to `sendMessage`, it either yields the reply text extracted
by `response.text()` or fails with a JavaScript error message (thrown
error, or no usable text in the response). -/
def Provider : Type :=
  List ChatTurn → String → Except String String

/-- JavaScript `String.prototype.trim`: drop leading and trailing
whitespace.  Defined structurally over the character list so it computes
by kernel reduction; agrees with JavaScript on ASCII whitespace. -/
def jsTrim (s : String) : String :=
  ⟨((s.data.dropWhile Char.isWhitespace).reverse.dropWhile
      Char.isWhitespace).reverse⟩

/-- Message coercion `typeof body?.message === 'string' ? body.message : ''`. -/
def messageOf (body : Json) : String :=
  match getField body "message" with
  | some (.str s) => s
  | _ => ""

/-- History coercion
`Array.isArray(body?.conversationHistory) ? body.conversationHistory : []`. -/
def historyOf (body : Json) : List Json :=
  match getField body "conversationHistory" with
  | some (.arr elems) => elems
  | _ => []

/-- The full `startChat` history: the two fixed turns followed by the
mapped client history. -/
def assembledHistory (body : Json) : List ChatTurn :=
  fixedHistory ++ (historyOf body).map mapHistoryTurn

/-- Outcome of the chat route: HTTP status, JSON payload, whether the
provider was invoked and, if so, with which history and message. -/
structure ChatOutcome where
  status : Nat
  payload : Json
  providerCalled : Bool
  sentHistory : List ChatTurn
  sentMessage : Option String
deriving Repr

/-- The chat route body logic on a successfully parsed body: coerce
`message` and `conversationHistory`, reject a blank message with 400,
otherwise call the provider and map its outcome to 200 or 500. -/
def handleChat (body : Json) (provider : Provider) : ChatOutcome :=
  let message := messageOf body
  if jsTrim message = "" then
    { status := 400
      payload := .obj [("error", .str "Message is required")]
      providerCalled := false
      sentHistory := []
      sentMessage := none }
  else
    let hist := assembledHistory body
    match provider hist message with
    | .ok text =>
        { status := 200
          payload := .obj [("response", .str text)]
          providerCalled := true
          sentHistory := hist
          sentMessage := some message }
    | .error errText =>
        { status := 500
          payload := .obj [("error", .str "Internal server error"),
                           ("details", .str errText)]
          providerCalled := true
          sentHistory := hist
          sentMessage := some message }

/-- The whole `POST /api/chat` inner try/catch: a body that failed to
parse (`readJson` rejecting) is caught by the same catch block and
produces 500 with the parse error message as `details`; a parsed body
goes to `handleChat`.  The function is total: every request produces a
response, which is the embedded form of request isolation (the handler
never lets an error escape to kill the process). -/
def handlePost (parsed : Except String Json) (provider : Provider) : ChatOutcome :=
  match parsed with
  | .error parseMsg =>
      { status := 500
        payload := .obj [("error", .str "Internal server error"),
                         ("details", .str parseMsg)]
        providerCalled := false
        sentHistory := []
        sentMessage := none }
  | .ok body => handleChat body provider

/-- Process-level configuration read once at module load:
`process.env.VERCEL_URL` (optional deployment origin) and `process.cwd()`. -/
structure ServerConfig where
  vercelUrl : Option String
  cwd : String

/-- One inbound HTTP request as the handler sees it: method, the
normalized `url.pathname`, the optional `Origin` header, and the result
of `readJson` on the body (only consulted on the chat route). -/
structure Request where
  method : String
  pathname : String
  origin : Option String
  postBody : Except String Json

/-- Outcome of `fs.stat` on a path: a regular file, a directory, a
not-found error (`ENOENT`), or any other stat error. -/
inductive StatResult where
  | file
  | dir
  | enoent
  | otherError
deriving Repr, DecidableEq

/-- The filesystem as the static branch observes it: `stat` outcomes,
whether `createReadStream` can open a path, and the bytes streamed when
it can. -/
structure Fs where
  stat : String → StatResult
  readable : String → Bool
  content : String → String

/-- A response body: plain text (also used for the empty body) or a JSON
payload (the argument of `sendJson` before serialization). -/
inductive Body where
  | text (s : String)
  | json (j : Json)
deriving Repr

/-- Everything observable about one handled request: status, the three
CORS headers, content type and body, which branch ran, and what reached
the provider. -/
structure ServerResult where
  status : Nat
  allowOrigin : String
  allowMethods : String
  allowHeaders : String
  contentType : Option String
  body : Body
  chatReached : Bool
  staticReached : Bool
  providerCalled : Bool
  sentHistory : List ChatTurn
  sentMessage : Option String

/-- The `Access-Control-Allow-Origin` value, following the source's two
truthiness tests: `const origin = req.headers.origin || '*'` makes an
absent or empty `Origin` header fall through to `*`, and
`process.env.VERCEL_URL ? 'https://' + VERCEL_URL : origin` uses the
deployment origin only when `VERCEL_URL` is set and non-empty. -/
def corsOrigin (config : ServerConfig) (originHeader : Option String) : String :=
  let origin :=
    match originHeader with
    | none => "*"
    | some o => if o = "" then "*" else o
  match config.vercelUrl with
  | none => origin
  | some v => if v = "" then origin else "https://" ++ v

/-- Node `path.join` restricted to the argument shapes this server
produces: URL pathnames are already normalized (no dot segments), so
joining is separator-aware concatenation. -/
def joinPath (a b : String) : String :=
  if a.endsWith "/" || b.startsWith "/" then a ++ b else a ++ "/" ++ b

/-- Last path component, as `path.basename`. -/
def basenameOf (p : String) : String :=
  (p.splitOn "/").getLastD ""

/-- Node `path.extname`: the suffix from the last dot of the basename,
empty when there is no dot or the only dot starts a dotfile. -/
def extname (p : String) : String :=
  let base := basenameOf p
  match base.splitOn "." with
  | [] => ""
  | [_] => ""
  | first :: rest =>
      if first = "" && rest.length == 1 then ""
      else "." ++ rest.getLastD ""

/-- The MIME table from the source. -/
def mimeTypes : List (String × String) :=
  [ (".html", "text/html"),
    (".js", "text/javascript"),
    (".css", "text/css"),
    (".json", "application/json"),
    (".png", "image/png"),
    (".jpg", "image/jpeg"),
    (".jpeg", "image/jpeg"),
    (".gif", "image/gif"),
    (".svg", "image/svg+xml"),
    (".wav", "audio/wav"),
    (".mp4", "video/mp4"),
    (".woff", "application/font-woff"),
    (".ttf", "application/font-ttf"),
    (".eot", "application/vnd.ms-fontobject"),
    (".otf", "application/font-otf"),
    (".wasm", "application/wasm"),
    (".ico", "image/x-icon"),
    (".map", "application/json") ]

/-- Content-type inference `mimeTypes[ext] || 'application/octet-stream'`. -/
def mimeOf (ext : String) : String :=
  (mimeTypes.lookup ext).getD "application/octet-stream"

/-- Status, content type and body produced by one `sendFile` or plain
`res.end` call. -/
structure FileOut where
  status : Nat
  contentType : Option String
  body : Body

/-- The `sendFile` helper: a readable file streams with the given content
type and the default 200 status; a stream error answers 404 Not Found. -/
def sendFile (fs : Fs) (filePath : String) (contentType : String) : FileOut :=
  if fs.readable filePath then
    { status := 200, contentType := some contentType, body := .text (fs.content filePath) }
  else
    { status := 404, contentType := none, body := .text "Not Found" }

/-- The pathname after the root default: `/` becomes `/index.html`. -/
def effectivePath (p : String) : String :=
  if p = "/" then "/index.html" else p

/-- The static file path `join(process.cwd(), 'public', pathname)`. -/
def staticFilePath (config : ServerConfig) (p : String) : String :=
  joinPath (joinPath config.cwd "public") (effectivePath p)

/-- The SPA fallback document `join(process.cwd(), 'public', 'index.html')`. -/
def indexPath (config : ServerConfig) : String :=
  joinPath (joinPath config.cwd "public") "index.html"

/-- Everything a route branch decides (the CORS headers are set before
routing and are not part of this). -/
structure RouteOut where
  status : Nat
  contentType : Option String
  body : Body
  chatReached : Bool
  staticReached : Bool
  providerCalled : Bool
  sentHistory : List ChatTurn
  sentMessage : Option String

/-- The routing part of the handler: answer OPTIONS with 204 before any
routing, route `POST /api/chat` to the chat logic, route GET to the
static branch with SPA fallback, and answer anything else 404. -/
def route (config : ServerConfig) (req : Request) (fs : Fs)
    (provider : Provider) : RouteOut :=
  let base : RouteOut :=
    { status := 200
      contentType := none
      body := .text ""
      chatReached := false
      staticReached := false
      providerCalled := false
      sentHistory := []
      sentMessage := none }
  if req.method = "OPTIONS" then
    { base with status := 204 }
  else
    let pathname := effectivePath req.pathname
    let ext := (extname pathname).toLower
    if req.method = "POST" && pathname = "/api/chat" then
      let outcome := handlePost req.postBody provider
      { base with
          status := outcome.status
          contentType := some "application/json; charset=utf-8"
          body := .json outcome.payload
          chatReached := true
          providerCalled := outcome.providerCalled
          sentHistory := outcome.sentHistory
          sentMessage := outcome.sentMessage }
    else if req.method = "GET" then
      let filePath := joinPath (joinPath config.cwd "public") pathname
      match fs.stat filePath with
      | .enoent =>
          let out := sendFile fs (indexPath config) "text/html"
          { base with status := out.status, contentType := out.contentType,
                      body := out.body, staticReached := true }
      | .otherError =>
          { base with status := 500, body := .text "Internal Server Error",
                      staticReached := true }
      | .dir =>
          let out := sendFile fs (joinPath filePath "index.html") "text/html"
          { base with status := out.status, contentType := out.contentType,
                      body := out.body, staticReached := true }
      | .file =>
          let out := sendFile fs filePath (mimeOf ext)
          { base with status := out.status, contentType := out.contentType,
                      body := out.body, staticReached := true }
    else
      { base with status := 404, body := .text "Not Found" }

/-- The full request handler of `http.createServer`: the three CORS
headers are set on every response before routing; everything else comes
from the matched route branch. -/
def handleRequest (config : ServerConfig) (req : Request) (fs : Fs)
    (provider : Provider) : ServerResult :=
  let out := route config req fs provider
  { status := out.status
    allowOrigin := corsOrigin config req.origin
    allowMethods := "GET, POST, OPTIONS"
    allowHeaders := "Content-Type"
    contentType := out.contentType
    body := out.body
    chatReached := out.chatReached
    staticReached := out.staticReached
    providerCalled := out.providerCalled
    sentHistory := out.sentHistory
    sentMessage := out.sentMessage }

/-- The process environment at module load. -/
structure Env where
  googleAiKey : Option String
  portVar : Option String

/-- Configuration a successful startup produces. -/
structure StartupConfig where
  port : Nat
  apiKey : String
deriving Repr, DecidableEq

/-- The port computation `Number(process.env.PORT || 3001)`: an unset or
empty `PORT` falls through `||` to 3001; otherwise the decimal value is
parsed (a non-numeric string is NaN in JavaScript, modelled as 0). -/
def portOf (portVar : Option String) : Nat :=
  match portVar with
  | none => 3001
  | some s => if s = "" then 3001 else s.toNat?.getD 0

/-- The module-load startup check: `if (!apiKey) throw new Error(...)`.
JavaScript truthiness makes both an unset and an empty `GOOGLE_AI_KEY`
fatal; with a truthy key the module proceeds to `server.listen(port)`. -/
def startup (env : Env) : Except String StartupConfig :=
  match env.googleAiKey with
  | none => .error "Missing required environment variable: GOOGLE_AI_KEY"
  | some key =>
      if key = "" then
        .error "Missing required environment variable: GOOGLE_AI_KEY"
      else
        .ok { port := portOf env.portVar, apiKey := key }

/-! ## Route-level helper lemmas -/

/-- On `POST /api/chat` the handler returns exactly the chat outcome of
`handlePost`, wrapped as JSON with the CORS headers. -/
theorem handleRequest_chat_route (config : ServerConfig) (req : Request)
    (fs : Fs) (provider : Provider)
    (hm : req.method = "POST") (hp : req.pathname = "/api/chat") :
    handleRequest config req fs provider =
      { status := (handlePost req.postBody provider).status
        allowOrigin := corsOrigin config req.origin
        allowMethods := "GET, POST, OPTIONS"
        allowHeaders := "Content-Type"
        contentType := some "application/json; charset=utf-8"
        body := .json (handlePost req.postBody provider).payload
        chatReached := true
        staticReached := false
        providerCalled := (handlePost req.postBody provider).providerCalled
        sentHistory := (handlePost req.postBody provider).sentHistory
        sentMessage := (handlePost req.postBody provider).sentMessage } := by
  simp [handleRequest, route, hm, hp, effectivePath]

/-! ## Claim theorems -/

/-- C1: a POST /api/chat request whose parsed body has no message field,
or whose message is a string that is empty or only whitespace after
trimming, is answered 400 with the JSON body holding exactly the error
field Message is required, and the provider is never invoked. -/
theorem chat_blank_message_rejected (config : ServerConfig) (req : Request)
    (fs : Fs) (provider : Provider) (body : Json)
    (hm : req.method = "POST") (hp : req.pathname = "/api/chat")
    (hb : req.postBody = .ok body)
    (hmsg : getField body "message" = none ∨
            ∃ s, getField body "message" = some (.str s) ∧ jsTrim s = "") :
    (handleRequest config req fs provider).status = 400 ∧
    (handleRequest config req fs provider).body =
      .json (.obj [("error", .str "Message is required")]) ∧
    (handleRequest config req fs provider).providerCalled = false := by
  rw [handleRequest_chat_route config req fs provider hm hp]
  have htrim : jsTrim (messageOf body) = "" := by
    rcases hmsg with h | ⟨s, hs, hst⟩
    · simp [messageOf, h]
      rfl
    · simp [messageOf, hs, hst]
  simp [hb, handlePost, handleChat, htrim]

/-- C1 witness: the empty-object body is rejected with 400 and no
provider call. -/
theorem chat_blank_message_rejected_witness :
    (handleRequest ⟨none, "/app"⟩ ⟨"POST", "/api/chat", none, .ok (.obj [])⟩
        ⟨fun _ => .enoent, fun _ => false, fun _ => ""⟩
        (fun _ _ => .ok "pong")).status = 400 ∧
    (handleRequest ⟨none, "/app"⟩ ⟨"POST", "/api/chat", none, .ok (.obj [])⟩
        ⟨fun _ => .enoent, fun _ => false, fun _ => ""⟩
        (fun _ _ => .ok "pong")).body =
      .json (.obj [("error", .str "Message is required")]) ∧
    (handleRequest ⟨none, "/app"⟩ ⟨"POST", "/api/chat", none, .ok (.obj [])⟩
        ⟨fun _ => .enoent, fun _ => false, fun _ => ""⟩
        (fun _ _ => .ok "pong")).providerCalled = false :=
  chat_blank_message_rejected _ _ _ _ (.obj []) rfl rfl rfl (Or.inl rfl)

/-- C2: a valid chat request reaches the provider with the history being
exactly the fixed system-instruction turn, the fixed greeting turn, then
the client history turns in order with roles normalized, and the new
message is what `sendMessage` delivers as the final user turn. -/
theorem chat_prompt_assembly (config : ServerConfig) (req : Request)
    (fs : Fs) (provider : Provider) (body : Json) (m : String)
    (hm : req.method = "POST") (hp : req.pathname = "/api/chat")
    (hb : req.postBody = .ok body)
    (hmsg : getField body "message" = some (.str m))
    (hne : jsTrim m ≠ "") :
    (handleRequest config req fs provider).providerCalled = true ∧
    (handleRequest config req fs provider).sentHistory =
      { role := "user", text := systemPrompt } ::
      { role := "model", text := greetingText } ::
      (historyOf body).map mapHistoryTurn ∧
    (handleRequest config req fs provider).sentMessage = some m := by
  rw [handleRequest_chat_route config req fs provider hm hp]
  have hmOf : messageOf body = m := by simp [messageOf, hmsg]
  simp only [hb, handlePost, handleChat, hmOf, if_neg hne]
  cases hprov : provider (assembledHistory body) m <;>
    simp [assembledHistory, fixedHistory]

/-- C2 witness: a message with a two-turn history (one user turn, one
turn with role system) assembles the fixed turns, then the user turn,
then the system turn normalized to model. -/
theorem chat_prompt_assembly_witness :
    (handleRequest ⟨none, "/app"⟩
        ⟨"POST", "/api/chat", none, .ok (.obj
          [("message", .str "hi"),
           ("conversationHistory", .arr
             [.obj [("role", .str "user"), ("content", .str "a")],
              .obj [("role", .str "system"), ("content", .str "b")]])])⟩
        ⟨fun _ => .enoent, fun _ => false, fun _ => ""⟩
        (fun _ _ => .ok "pong")).providerCalled = true ∧
    (handleRequest ⟨none, "/app"⟩
        ⟨"POST", "/api/chat", none, .ok (.obj
          [("message", .str "hi"),
           ("conversationHistory", .arr
             [.obj [("role", .str "user"), ("content", .str "a")],
              .obj [("role", .str "system"), ("content", .str "b")]])])⟩
        ⟨fun _ => .enoent, fun _ => false, fun _ => ""⟩
        (fun _ _ => .ok "pong")).sentHistory =
      { role := "user", text := systemPrompt } ::
      { role := "model", text := greetingText } ::
      (historyOf (.obj
          [("message", .str "hi"),
           ("conversationHistory", .arr
             [.obj [("role", .str "user"), ("content", .str "a")],
              .obj [("role", .str "system"), ("content", .str "b")]])])).map
        mapHistoryTurn ∧
    (handleRequest ⟨none, "/app"⟩
        ⟨"POST", "/api/chat", none, .ok (.obj
          [("message", .str "hi"),
           ("conversationHistory", .arr
             [.obj [("role", .str "user"), ("content", .str "a")],
              .obj [("role", .str "system"), ("content", .str "b")]])])⟩
        ⟨fun _ => .enoent, fun _ => false, fun _ => ""⟩
        (fun _ _ => .ok "pong")).sentMessage = some "hi" :=
  chat_prompt_assembly _ _ _ _ _ "hi" rfl rfl rfl rfl (by decide)

/-- C3: on the chat route, a body that failed to parse as JSON, or a
provider call that fails or yields no usable text, is answered 500 with
the JSON body carrying error Internal server error and details with the
underlying message; the handler still completes its route normally
(`chatReached`), which is the embedded form of the process surviving the
request. -/
theorem chat_failure_internal_error (config : ServerConfig) (req : Request)
    (fs : Fs) (provider : Provider)
    (hm : req.method = "POST") (hp : req.pathname = "/api/chat") :
    (∀ e, req.postBody = .error e →
      (handleRequest config req fs provider).status = 500 ∧
      (handleRequest config req fs provider).body =
        .json (.obj [("error", .str "Internal server error"),
                     ("details", .str e)]) ∧
      (handleRequest config req fs provider).chatReached = true) ∧
    (∀ body em, req.postBody = .ok body →
      jsTrim (messageOf body) ≠ "" →
      provider (assembledHistory body) (messageOf body) = .error em →
      (handleRequest config req fs provider).status = 500 ∧
      (handleRequest config req fs provider).body =
        .json (.obj [("error", .str "Internal server error"),
                     ("details", .str em)]) ∧
      (handleRequest config req fs provider).chatReached = true) := by
  rw [handleRequest_chat_route config req fs provider hm hp]
  constructor
  · intro e he
    simp [he, handlePost]
  · intro body em hb hne hprov
    simp [hb, handlePost, handleChat, hne, hprov]

/-- C3 witness: a malformed body is answered 500 with the parse error as
details, and a failing provider is answered 500 with its message as
details. -/
theorem chat_failure_internal_error_witness :
    ((handleRequest ⟨none, "/app"⟩
        ⟨"POST", "/api/chat", none, .error "Unexpected end of JSON input"⟩
        ⟨fun _ => .enoent, fun _ => false, fun _ => ""⟩
        (fun _ _ => .ok "pong")).status = 500 ∧
     (handleRequest ⟨none, "/app"⟩
        ⟨"POST", "/api/chat", none, .error "Unexpected end of JSON input"⟩
        ⟨fun _ => .enoent, fun _ => false, fun _ => ""⟩
        (fun _ _ => .ok "pong")).body =
       .json (.obj [("error", .str "Internal server error"),
                    ("details", .str "Unexpected end of JSON input")]) ∧
     (handleRequest ⟨none, "/app"⟩
        ⟨"POST", "/api/chat", none, .error "Unexpected end of JSON input"⟩
        ⟨fun _ => .enoent, fun _ => false, fun _ => ""⟩
        (fun _ _ => .ok "pong")).chatReached = true) ∧
    ((handleRequest ⟨none, "/app"⟩
        ⟨"POST", "/api/chat", none, .ok (.obj [("message", .str "hi")])⟩
        ⟨fun _ => .enoent, fun _ => false, fun _ => ""⟩
        (fun _ _ => .error "boom")).status = 500 ∧
     (handleRequest ⟨none, "/app"⟩
        ⟨"POST", "/api/chat", none, .ok (.obj [("message", .str "hi")])⟩
        ⟨fun _ => .enoent, fun _ => false, fun _ => ""⟩
        (fun _ _ => .error "boom")).body =
       .json (.obj [("error", .str "Internal server error"),
                    ("details", .str "boom")]) ∧
     (handleRequest ⟨none, "/app"⟩
        ⟨"POST", "/api/chat", none, .ok (.obj [("message", .str "hi")])⟩
        ⟨fun _ => .enoent, fun _ => false, fun _ => ""⟩
        (fun _ _ => .error "boom")).chatReached = true) :=
  ⟨(chat_failure_internal_error _ _ _ _ rfl rfl).1
      "Unexpected end of JSON input" rfl,
   (chat_failure_internal_error _ _ _ _ rfl rfl).2
      (.obj [("message", .str "hi")]) "boom" rfl (by decide) rfl⟩

/-- C4: the role mapping sends a turn to role user exactly when its role
field is the string user and to model otherwise (system included), and
normalization is idempotent: a role that is already user or model is left
unchanged. -/
theorem role_normalization_spec (r : String) (msg : Json) :
    (normalizeRole r = "user" ↔ r = "user") ∧
    (r ≠ "user" → normalizeRole r = "model") ∧
    normalizeRole (normalizeRole r) = normalizeRole r ∧
    ((mapHistoryTurn msg).role = "user" ↔
      getField msg "role" = some (.str "user")) ∧
    normalizeRole (mapHistoryTurn msg).role = (mapHistoryTurn msg).role := by
  refine ⟨?_, ?_, ?_, ?_, ?_⟩
  · by_cases h : r = "user" <;> simp [normalizeRole, h]
  · intro h
    simp [normalizeRole, h]
  · by_cases h : r = "user" <;> simp [normalizeRole, h]
  · simp only [mapHistoryTurn]
    split
    · next heq => simp [heq]
    · next hne =>
        simp only [show ("model" : String) = "user" ↔ False by simp,
          false_iff]
        intro hcontra
        exact hne hcontra
  · have hrole : (mapHistoryTurn msg).role = "user" ∨
        (mapHistoryTurn msg).role = "model" := by
      simp only [mapHistoryTurn]
      split
      · exact Or.inl rfl
      · exact Or.inr rfl
    rcases hrole with h | h <;> rw [h] <;> decide

/-- C4 witness: role system is normalized to model, role user to user,
and re-normalizing is a no-op. -/
theorem role_normalization_spec_witness :
    (normalizeRole "system" = "user" ↔ ("system" : String) = "user") ∧
    (("system" : String) ≠ "user" → normalizeRole "system" = "model") ∧
    normalizeRole (normalizeRole "system") = normalizeRole "system" ∧
    ((mapHistoryTurn (.obj [("role", .str "system"), ("content", .str "b")])).role = "user" ↔
      getField (.obj [("role", .str "system"), ("content", .str "b")]) "role" =
        some (.str "user")) ∧
    normalizeRole (mapHistoryTurn
        (.obj [("role", .str "system"), ("content", .str "b")])).role =
      (mapHistoryTurn (.obj [("role", .str "system"), ("content", .str "b")])).role :=
  role_normalization_spec "system" (.obj [("role", .str "system"), ("content", .str "b")])

/-- C5: an OPTIONS request to any path is answered 204 with an empty body
and the three CORS headers, and neither the chat handler nor the static
branch runs. -/
theorem options_preflight (config : ServerConfig) (req : Request) (fs : Fs)
    (provider : Provider) (hm : req.method = "OPTIONS") :
    (handleRequest config req fs provider).status = 204 ∧
    (handleRequest config req fs provider).body = .text "" ∧
    (handleRequest config req fs provider).allowOrigin =
      corsOrigin config req.origin ∧
    (handleRequest config req fs provider).allowMethods = "GET, POST, OPTIONS" ∧
    (handleRequest config req fs provider).allowHeaders = "Content-Type" ∧
    (handleRequest config req fs provider).chatReached = false ∧
    (handleRequest config req fs provider).staticReached = false := by
  simp [handleRequest, route, hm]

/-- C5 witness: a concrete OPTIONS request to a non-root path. -/
theorem options_preflight_witness :
    (handleRequest ⟨none, "/app"⟩ ⟨"OPTIONS", "/api/chat", some "http://x", .ok .null⟩
        ⟨fun _ => .enoent, fun _ => false, fun _ => ""⟩
        (fun _ _ => .ok "pong")).status = 204 ∧
    (handleRequest ⟨none, "/app"⟩ ⟨"OPTIONS", "/api/chat", some "http://x", .ok .null⟩
        ⟨fun _ => .enoent, fun _ => false, fun _ => ""⟩
        (fun _ _ => .ok "pong")).body = .text "" ∧
    (handleRequest ⟨none, "/app"⟩ ⟨"OPTIONS", "/api/chat", some "http://x", .ok .null⟩
        ⟨fun _ => .enoent, fun _ => false, fun _ => ""⟩
        (fun _ _ => .ok "pong")).allowOrigin =
      corsOrigin ⟨none, "/app"⟩ (some "http://x") ∧
    (handleRequest ⟨none, "/app"⟩ ⟨"OPTIONS", "/api/chat", some "http://x", .ok .null⟩
        ⟨fun _ => .enoent, fun _ => false, fun _ => ""⟩
        (fun _ _ => .ok "pong")).allowMethods = "GET, POST, OPTIONS" ∧
    (handleRequest ⟨none, "/app"⟩ ⟨"OPTIONS", "/api/chat", some "http://x", .ok .null⟩
        ⟨fun _ => .enoent, fun _ => false, fun _ => ""⟩
        (fun _ _ => .ok "pong")).allowHeaders = "Content-Type" ∧
    (handleRequest ⟨none, "/app"⟩ ⟨"OPTIONS", "/api/chat", some "http://x", .ok .null⟩
        ⟨fun _ => .enoent, fun _ => false, fun _ => ""⟩
        (fun _ _ => .ok "pong")).chatReached = false ∧
    (handleRequest ⟨none, "/app"⟩ ⟨"OPTIONS", "/api/chat", some "http://x", .ok .null⟩
        ⟨fun _ => .enoent, fun _ => false, fun _ => ""⟩
        (fun _ _ => .ok "pong")).staticReached = false :=
  options_preflight _ _ _ _ rfl

/-- C6: a GET whose resolved static path stats as not found is answered
with the front-end entry document at the default 200 status, and a GET
for a directory is answered with that directory's entry document, also
at 200 (in both cases provided the entry document is readable, since a
stream error inside `sendFile` is the only path to 404). -/
theorem spa_fallback (config : ServerConfig) (req : Request) (fs : Fs)
    (provider : Provider) (hm : req.method = "GET") :
    (fs.stat (staticFilePath config req.pathname) = .enoent →
      fs.readable (indexPath config) = true →
      (handleRequest config req fs provider).status = 200 ∧
      (handleRequest config req fs provider).contentType = some "text/html" ∧
      (handleRequest config req fs provider).body =
        .text (fs.content (indexPath config))) ∧
    (fs.stat (staticFilePath config req.pathname) = .dir →
      fs.readable (joinPath (staticFilePath config req.pathname) "index.html")
        = true →
      (handleRequest config req fs provider).status = 200 ∧
      (handleRequest config req fs provider).contentType = some "text/html" ∧
      (handleRequest config req fs provider).body =
        .text (fs.content
          (joinPath (staticFilePath config req.pathname) "index.html"))) := by
  constructor
  · intro h1 h2
    simp only [staticFilePath] at h1
    simp [handleRequest, route, hm, h1, sendFile, h2]
  · intro h1 h2
    simp only [staticFilePath] at h1 h2
    simp [handleRequest, route, hm, h1, sendFile, h2, staticFilePath]

/-- C6 witness: a GET for a missing path serves the entry document with
200, and a GET for a directory serves that directory's entry document
with 200. -/
theorem spa_fallback_witness :
    ((handleRequest ⟨none, "/app"⟩
        ⟨"GET", "/does-not-exist.xyz", none, .ok .null⟩
        ⟨fun _ => .enoent, fun _ => true, fun _ => "<html>app</html>"⟩
        (fun _ _ => .ok "pong")).status = 200 ∧
     (handleRequest ⟨none, "/app"⟩
        ⟨"GET", "/does-not-exist.xyz", none, .ok .null⟩
        ⟨fun _ => .enoent, fun _ => true, fun _ => "<html>app</html>"⟩
        (fun _ _ => .ok "pong")).contentType = some "text/html" ∧
     (handleRequest ⟨none, "/app"⟩
        ⟨"GET", "/does-not-exist.xyz", none, .ok .null⟩
        ⟨fun _ => .enoent, fun _ => true, fun _ => "<html>app</html>"⟩
        (fun _ _ => .ok "pong")).body =
       .text ((fun (_ : String) => "<html>app</html>")
         (indexPath ⟨none, "/app"⟩))) ∧
    ((handleRequest ⟨none, "/app"⟩ ⟨"GET", "/docs", none, .ok .null⟩
        ⟨fun _ => .dir, fun _ => true, fun _ => "<html>docs</html>"⟩
        (fun _ _ => .ok "pong")).status = 200 ∧
     (handleRequest ⟨none, "/app"⟩ ⟨"GET", "/docs", none, .ok .null⟩
        ⟨fun _ => .dir, fun _ => true, fun _ => "<html>docs</html>"⟩
        (fun _ _ => .ok "pong")).contentType = some "text/html" ∧
     (handleRequest ⟨none, "/app"⟩ ⟨"GET", "/docs", none, .ok .null⟩
        ⟨fun _ => .dir, fun _ => true, fun _ => "<html>docs</html>"⟩
        (fun _ _ => .ok "pong")).body =
       .text ((fun (_ : String) => "<html>docs</html>")
         (joinPath (staticFilePath ⟨none, "/app"⟩ "/docs") "index.html"))) :=
  ⟨(spa_fallback ⟨none, "/app"⟩ ⟨"GET", "/does-not-exist.xyz", none, .ok .null⟩
      ⟨fun _ => .enoent, fun _ => true, fun _ => "<html>app</html>"⟩
      (fun _ _ => .ok "pong") rfl).1 rfl rfl,
   (spa_fallback ⟨none, "/app"⟩ ⟨"GET", "/docs", none, .ok .null⟩
      ⟨fun _ => .dir, fun _ => true, fun _ => "<html>docs</html>"⟩
      (fun _ _ => .ok "pong") rfl).2 rfl rfl⟩

/-- C7: every response carries the three CORS headers:
Access-Control-Allow-Methods is GET, POST, OPTIONS,
Access-Control-Allow-Headers is Content-Type, and
Access-Control-Allow-Origin is https:// plus the deployment origin when
a non-empty one is configured, otherwise it echoes a non-empty declared
request origin, and falls back to star when neither is available (the
source tests truthiness, so an empty VERCEL_URL and an empty Origin
header both fall through). -/
theorem cors_headers_on_every_response (config : ServerConfig)
    (req : Request) (fs : Fs) (provider : Provider) :
    (handleRequest config req fs provider).allowMethods =
      "GET, POST, OPTIONS" ∧
    (handleRequest config req fs provider).allowHeaders = "Content-Type" ∧
    (∀ v, config.vercelUrl = some v → v ≠ "" →
      (handleRequest config req fs provider).allowOrigin = "https://" ++ v) ∧
    ((config.vercelUrl = none ∨ config.vercelUrl = some "") →
      (∀ o, req.origin = some o → o ≠ "" →
        (handleRequest config req fs provider).allowOrigin = o) ∧
      ((req.origin = none ∨ req.origin = some "") →
        (handleRequest config req fs provider).allowOrigin = "*")) := by
  refine ⟨rfl, rfl, ?_, ?_⟩
  · intro v hv hne
    show corsOrigin config req.origin = "https://" ++ v
    simp [corsOrigin, hv, hne]
  · intro hc
    constructor
    · intro o ho hone
      show corsOrigin config req.origin = o
      rcases hc with h | h <;> simp [corsOrigin, h, ho, hone]
    · intro hor
      show corsOrigin config req.origin = "*"
      rcases hc with h | h <;> rcases hor with h2 | h2 <;>
        simp [corsOrigin, h, h2]

/-- C7 witness: a non-empty deployment origin wins over a declared
origin; with no deployment origin a declared origin is echoed; with an
empty (present but falsy) VERCEL_URL and no Origin header the value is
star. -/
theorem cors_headers_on_every_response_witness :
    ((handleRequest ⟨some "cheesa.vercel.app", "/app"⟩
        ⟨"GET", "/", some "http://evil.example", .ok .null⟩
        ⟨fun _ => .enoent, fun _ => true, fun _ => ""⟩
        (fun _ _ => .ok "pong")).allowMethods = "GET, POST, OPTIONS" ∧
     (handleRequest ⟨some "cheesa.vercel.app", "/app"⟩
        ⟨"GET", "/", some "http://evil.example", .ok .null⟩
        ⟨fun _ => .enoent, fun _ => true, fun _ => ""⟩
        (fun _ _ => .ok "pong")).allowOrigin =
       "https://" ++ "cheesa.vercel.app") ∧
    (handleRequest ⟨none, "/app"⟩
        ⟨"POST", "/api/chat", some "http://localhost:5173", .ok .null⟩
        ⟨fun _ => .enoent, fun _ => true, fun _ => ""⟩
        (fun _ _ => .ok "pong")).allowOrigin = "http://localhost:5173" ∧
    (handleRequest ⟨some "", "/app"⟩ ⟨"GET", "/", none, .ok .null⟩
        ⟨fun _ => .enoent, fun _ => true, fun _ => ""⟩
        (fun _ _ => .ok "pong")).allowOrigin = "*" :=
  ⟨⟨(cors_headers_on_every_response ⟨some "cheesa.vercel.app", "/app"⟩
        ⟨"GET", "/", some "http://evil.example", .ok .null⟩
        ⟨fun _ => .enoent, fun _ => true, fun _ => ""⟩
        (fun _ _ => .ok "pong")).1,
    (cors_headers_on_every_response ⟨some "cheesa.vercel.app", "/app"⟩
        ⟨"GET", "/", some "http://evil.example", .ok .null⟩
        ⟨fun _ => .enoent, fun _ => true, fun _ => ""⟩
        (fun _ _ => .ok "pong")).2.2.1 "cheesa.vercel.app" rfl (by decide)⟩,
   ((cors_headers_on_every_response ⟨none, "/app"⟩
        ⟨"POST", "/api/chat", some "http://localhost:5173", .ok .null⟩
        ⟨fun _ => .enoent, fun _ => true, fun _ => ""⟩
        (fun _ _ => .ok "pong")).2.2.2 (Or.inl rfl)).1
     "http://localhost:5173" rfl (by decide),
   ((cors_headers_on_every_response ⟨some "", "/app"⟩
        ⟨"GET", "/", none, .ok .null⟩
        ⟨fun _ => .enoent, fun _ => true, fun _ => ""⟩
        (fun _ _ => .ok "pong")).2.2.2 (Or.inr rfl)).2 (Or.inl rfl)⟩

/-- C8 counterexample: an environment whose GOOGLE_AI_KEY is present but
empty has the key present, yet startup still refuses to start, because
the source tests JavaScript truthiness, not presence. -/
theorem startup_present_key_counterexample :
    (Env.mk (some "") none).googleAiKey.isSome = true ∧
    startup (Env.mk (some "") none) =
      .error "Missing required environment variable: GOOGLE_AI_KEY" :=
  ⟨rfl, rfl⟩

/-- C8 (amended): an absent or empty GOOGLE_AI_KEY is a fatal startup
error; with a non-empty key present, startup proceeds with that key and
the listen port, which defaults to 3001 when PORT is unset. -/
theorem startup_key_check (env : Env) :
    ((env.googleAiKey = none ∨ env.googleAiKey = some "") →
      startup env =
        .error "Missing required environment variable: GOOGLE_AI_KEY") ∧
    (∀ k, env.googleAiKey = some k → k ≠ "" →
      startup env = .ok { port := portOf env.portVar, apiKey := k } ∧
      (env.portVar = none → portOf env.portVar = 3001)) := by
  constructor
  · rintro (h | h) <;> simp [startup, h]
  · intro k hk hne
    refine ⟨by simp [startup, hk, hne], fun hp => by simp [portOf, hp]⟩

/-- C8 witness: an unset key is fatal, and a concrete non-empty key with
PORT unset starts with port 3001. -/
theorem startup_key_check_witness :
    startup ⟨none, none⟩ =
      .error "Missing required environment variable: GOOGLE_AI_KEY" ∧
    (startup ⟨some "test-key", none⟩ =
        .ok { port := portOf none, apiKey := "test-key" } ∧
      ((none : Option String) = none → portOf none = 3001)) :=
  ⟨(startup_key_check ⟨none, none⟩).1 (Or.inl rfl),
   (startup_key_check ⟨some "test-key", none⟩).2 "test-key" rfl (by decide)⟩

/-- C9: a chat request whose message field is present but not a string
(number, object, array, boolean or null) is coerced to the empty string
and rejected 400 with Message is required, without a provider call. -/
theorem chat_nonstring_message_rejected (config : ServerConfig)
    (req : Request) (fs : Fs) (provider : Provider) (body j : Json)
    (hm : req.method = "POST") (hp : req.pathname = "/api/chat")
    (hb : req.postBody = .ok body)
    (hj : getField body "message" = some j)
    (hns : ∀ s, j ≠ .str s) :
    messageOf body = "" ∧
    (handleRequest config req fs provider).status = 400 ∧
    (handleRequest config req fs provider).body =
      .json (.obj [("error", .str "Message is required")]) ∧
    (handleRequest config req fs provider).providerCalled = false := by
  have h0 : messageOf body = "" := by
    simp only [messageOf, hj]
    cases j
    case str s => exact absurd rfl (hns s)
    all_goals rfl
  have htrim : jsTrim (messageOf body) = "" := by rw [h0]; rfl
  rw [handleRequest_chat_route config req fs provider hm hp]
  exact ⟨h0, by simp [hb, handlePost, handleChat, htrim]⟩

/-- C9 witness: a numeric message is rejected 400 with no provider call. -/
theorem chat_nonstring_message_rejected_witness :
    messageOf (.obj [("message", .num 42)]) = "" ∧
    (handleRequest ⟨none, "/app"⟩
        ⟨"POST", "/api/chat", none, .ok (.obj [("message", .num 42)])⟩
        ⟨fun _ => .enoent, fun _ => false, fun _ => ""⟩
        (fun _ _ => .ok "pong")).status = 400 ∧
    (handleRequest ⟨none, "/app"⟩
        ⟨"POST", "/api/chat", none, .ok (.obj [("message", .num 42)])⟩
        ⟨fun _ => .enoent, fun _ => false, fun _ => ""⟩
        (fun _ _ => .ok "pong")).body =
      .json (.obj [("error", .str "Message is required")]) ∧
    (handleRequest ⟨none, "/app"⟩
        ⟨"POST", "/api/chat", none, .ok (.obj [("message", .num 42)])⟩
        ⟨fun _ => .enoent, fun _ => false, fun _ => ""⟩
        (fun _ _ => .ok "pong")).providerCalled = false :=
  chat_nonstring_message_rejected _ _ _ _ _ (.num 42) rfl rfl rfl rfl
    (fun _ h => Json.noConfusion h)

/-- C10: a chat request whose conversationHistory is present but not an
array is treated as having an empty history: the provider receives only
the two fixed turns as history plus the new message, and the request
succeeds when the provider does. -/
theorem chat_nonarray_history_ignored (config : ServerConfig)
    (req : Request) (fs : Fs) (provider : Provider) (body j : Json)
    (m t : String)
    (hm : req.method = "POST") (hp : req.pathname = "/api/chat")
    (hb : req.postBody = .ok body)
    (hj : getField body "conversationHistory" = some j)
    (hna : ∀ xs, j ≠ .arr xs)
    (hmsg : getField body "message" = some (.str m))
    (hne : jsTrim m ≠ "")
    (hprov : provider (assembledHistory body) m = .ok t) :
    (handleRequest config req fs provider).status = 200 ∧
    (handleRequest config req fs provider).body =
      .json (.obj [("response", .str t)]) ∧
    (handleRequest config req fs provider).sentHistory = fixedHistory ∧
    (handleRequest config req fs provider).sentMessage = some m := by
  have hh : historyOf body = [] := by
    simp only [historyOf, hj]
    cases j
    case arr xs => exact absurd rfl (hna xs)
    all_goals rfl
  have hassemble : assembledHistory body = fixedHistory := by
    simp [assembledHistory, hh]
  have hmOf : messageOf body = m := by simp [messageOf, hmsg]
  rw [handleRequest_chat_route config req fs provider hm hp]
  rw [hassemble] at hprov
  simp [hb, handlePost, handleChat, hmOf, hne, hassemble, hprov]

/-- C10 witness: a string-valued conversationHistory is ignored and the
request succeeds with only the fixed turns as history. -/
theorem chat_nonarray_history_ignored_witness :
    (handleRequest ⟨none, "/app"⟩
        ⟨"POST", "/api/chat", none, .ok (.obj
          [("message", .str "hi"), ("conversationHistory", .str "oops")])⟩
        ⟨fun _ => .enoent, fun _ => false, fun _ => ""⟩
        (fun _ _ => .ok "yo")).status = 200 ∧
    (handleRequest ⟨none, "/app"⟩
        ⟨"POST", "/api/chat", none, .ok (.obj
          [("message", .str "hi"), ("conversationHistory", .str "oops")])⟩
        ⟨fun _ => .enoent, fun _ => false, fun _ => ""⟩
        (fun _ _ => .ok "yo")).body =
      .json (.obj [("response", .str "yo")]) ∧
    (handleRequest ⟨none, "/app"⟩
        ⟨"POST", "/api/chat", none, .ok (.obj
          [("message", .str "hi"), ("conversationHistory", .str "oops")])⟩
        ⟨fun _ => .enoent, fun _ => false, fun _ => ""⟩
        (fun _ _ => .ok "yo")).sentHistory = fixedHistory ∧
    (handleRequest ⟨none, "/app"⟩
        ⟨"POST", "/api/chat", none, .ok (.obj
          [("message", .str "hi"), ("conversationHistory", .str "oops")])⟩
        ⟨fun _ => .enoent, fun _ => false, fun _ => ""⟩
        (fun _ _ => .ok "yo")).sentMessage = some "hi" :=
  chat_nonarray_history_ignored _ _ _ _ _ (.str "oops") "hi" "yo"
    rfl rfl rfl rfl (fun xs h => Json.noConfusion h) rfl (by decide) rfl

end Cheesa
